import Mathlib

/-!
Shallow embedding of the speech repository: a browser control panel for a
remote browser-automation agent.  The embedding covers the Task API client
(src/unnamed/part_000, top section), the voice-browser page with its
reconnecting WebSocket channel and speech adapters (src/unnamed/part_000,
component section), and the task page polling logic (src/app/page.tsx).
Each definition mirrors one function of the TypeScript source; browser
effects (network sends, chat messages, speech output) are reified as
explicit effect lists and React state is passed explicitly.
-/

namespace Speech

/-! ## Task API client (src/unnamed/part_000, API functions) -/

/-- Abstraction of a parsed JSON body: the error paths of the client only
ever inspect the `detail` field, so only that field is modelled. -/
structure Js where
  detail : Option String
deriving DecidableEq

/-- An HTTP response: its status code, and its body — `none` when the body
is not parsable as JSON (so that `response.json()` rejects). -/
structure HttpResponse where
  status : Nat
  body : Option Js
deriving DecidableEq

/-- The fetch `Response.ok` flag: status in the inclusive range 200 to 299. -/
def respOk (status : Nat) : Bool :=
  decide (200 ≤ status) && decide (status ≤ 299)

/-- JS fallback `errorData.detail || errorDetail`: the detail field is used
when the body parsed as JSON and the field is present and truthy (a
non-empty string); otherwise the default message is kept. -/
def detailOrDefault (body : Option Js) (dflt : String) : String :=
  match body with
  | none => dflt
  | some j =>
    match j.detail with
    | none => dflt
    | some d => if d = "" then dflt else d

/-- Mirrors `handleApiResponse`: a non-2xx response throws the
detail-or-generic message (the generic one names the call context and the
status code), a 204 response yields null, and otherwise the parsed JSON
body is returned (a non-parsable body makes `response.json()` reject). -/
def handleApiResponse (resp : HttpResponse) (context : String) :
    Except String (Option Js) :=
  if respOk resp.status = false then
    Except.error (detailOrDefault resp.body
      ("HTTP error! status: " ++ toString resp.status ++ " in " ++ context))
  else if resp.status = 204 then
    Except.ok none
  else
    match resp.body with
    | none => Except.error "Unexpected end of JSON input"
    | some j => Except.ok (some j)

/-- Mirrors the error handling inlined in `createTask`: the same
detail-or-generic logic, but its generic message carries no context
suffix. -/
def createTaskResult (resp : HttpResponse) : Except String Js :=
  if respOk resp.status = false then
    Except.error (detailOrDefault resp.body
      ("HTTP error! status: " ++ toString resp.status))
  else
    match resp.body with
    | none => Except.error "Unexpected end of JSON input"
    | some j => Except.ok j

/-- Mirrors `fetchTaskStatus`: every non-2xx response throws the generic
status message; the response body is never inspected on the error path. -/
def fetchTaskStatusResult (resp : HttpResponse) : Except String Js :=
  if respOk resp.status = false then
    Except.error ("Failed to fetch status: " ++ toString resp.status)
  else
    match resp.body with
    | none => Except.error "Unexpected end of JSON input"
    | some j => Except.ok j

/-- Mirrors `fetchActionData`: a 204 response yields null before the shared
handler runs; the surrounding try/catch rethrows and is the identity here. -/
def fetchActionDataResult (resp : HttpResponse) : Except String (Option Js) :=
  if resp.status = 204 then Except.ok none
  else handleApiResponse resp "fetchActionData"

/-- Mirrors `fetchStepData`: same shape as `fetchActionData`. -/
def fetchStepDataResult (resp : HttpResponse) : Except String (Option Js) :=
  if resp.status = 204 then Except.ok none
  else handleApiResponse resp "fetchStepData"

/-- Mirrors `fetchPlannerThoughts`: the shared handler with its context. -/
def fetchPlannerThoughtsResult (resp : HttpResponse) : Except String (Option Js) :=
  handleApiResponse resp "fetchPlannerThoughts"

/-- Mirrors `markPlannerThoughtsSeen`: the shared handler with its context. -/
def markPlannerThoughtsSeenResult (resp : HttpResponse) : Except String (Option Js) :=
  handleApiResponse resp "markPlannerThoughtsSeen"

/-- Mirrors `resumeTask`: the shared handler with its context. -/
def resumeTaskResult (resp : HttpResponse) : Except String (Option Js) :=
  handleApiResponse resp "resumeTask"

/-- Mirrors `approveAction`: the shared handler with its context. -/
def approveActionResult (resp : HttpResponse) : Except String (Option Js) :=
  handleApiResponse resp "approveAction"

/-- Mirrors `rejectAction`: the shared handler with its context. -/
def rejectActionResult (resp : HttpResponse) : Except String (Option Js) :=
  handleApiResponse resp "rejectAction"

/-- Mirrors `cancelGoal`: the shared handler with its context. -/
def cancelGoalResult (resp : HttpResponse) : Except String (Option Js) :=
  handleApiResponse resp "cancelGoal"

/-! ## Reconnecting WebSocket channel (src/unnamed/part_000, connectToBackend) -/

/-- The connection state the reconnect logic depends on: the connected flag
and the value of `reconnectAttemptsRef`. -/
structure ChannelState where
  connected : Bool
  attempts : Nat
deriving DecidableEq

/-- The exponential backoff delay: `min(1000 * 2 ** attempts, 30000)`. -/
def backoffDelay (attempts : Nat) : Nat :=
  min (1000 * 2 ^ attempts) 30000

/-- Mirrors `ws.onopen`: mark connected and reset the attempt counter. -/
def wsOnOpen (_s : ChannelState) : ChannelState :=
  { connected := true, attempts := 0 }

/-- Mirrors `ws.onclose`: always mark disconnected; when the close code is
not 1000 compute the delay from the current attempt counter, increment the
counter, and schedule one reconnect (the returned delay); a clean close
schedules nothing. -/
def wsOnClose (s : ChannelState) (code : Nat) : ChannelState × Option Nat :=
  if code ≠ 1000 then
    ({ connected := false, attempts := s.attempts + 1 }, some (backoffDelay s.attempts))
  else
    ({ connected := false, attempts := s.attempts }, none)

/-! ## Inbound message deduplication (src/unnamed/part_000, ws.onmessage) -/

/-- The dedup key of an inbound message: its type, its stringified payload
and its 2-second arrival bucket, joined with dashes as in the source. -/
def messageKey (msgType payload : String) (now : Nat) : String :=
  msgType ++ "-" ++ payload ++ "-" ++ toString (now / 2000)

/-- Mirrors the insertion into `processedMessagesRef`: append the key to
the insertion-ordered set, and when the size exceeds 50 delete the first
(oldest) entry. -/
def addCapped (seen : List String) (key : String) : List String :=
  let seen1 := seen ++ [key]
  if seen1.length > 50 then seen1.tail else seen1

/-- Mirrors the dedup gate of `ws.onmessage`: a key already seen makes the
handler return early (the message is dropped, first component false);
otherwise the message is processed and the key recorded. -/
def wsDedupStep (seen : List String) (key : String) : Bool × List String :=
  if key ∈ seen then (false, seen)
  else (true, addCapped seen key)

/-- Outcome of the `result` branch of `ws.onmessage`. -/
structure ResultOutcome where
  seen : List String
  lastResult : String
  appended : Bool
  spoken : Bool
deriving DecidableEq

/-- Dedup key of a result message; `JSON.stringify` of the one-field
payload is injective in the text field, so the text stands in for the
stringified payload. -/
def resultKey (text : String) (now : Nat) : String :=
  messageKey "result" text now

/-- Mirrors the `result` branch of `ws.onmessage`: the 2-second-bucket
gate runs first; past it, a text equal to `lastResultMessageRef` is
appended to the chat but not spoken, and any other text is spoken, stored
as the new last result, and appended. -/
def onResultMessage (seen : List String) (lastResult text : String) (now : Nat) :
    ResultOutcome :=
  let key := resultKey text now
  if key ∈ seen then
    { seen := seen, lastResult := lastResult, appended := false, spoken := false }
  else
    let seen1 := addCapped seen key
    if lastResult = text then
      { seen := seen1, lastResult := lastResult, appended := true, spoken := false }
    else
      { seen := seen1, lastResult := text, appended := true, spoken := true }

/-! ## Speech recognition handler (src/unnamed/part_000, setupSpeechRecognition) -/

/-- Whitespace as trimmed by the JS `String.prototype.trim` on the inputs
that occur here. -/
def jsWhitespace (c : Char) : Bool :=
  c == ' ' || c == '\t' || c == '\n' || c == '\r'

/-- Trim on character lists. -/
def trimChars (l : List Char) : List Char :=
  ((l.dropWhile jsWhitespace).reverse.dropWhile jsWhitespace).reverse

/-- Mirrors `transcript.trim()`. -/
def jsTrim (s : String) : String :=
  String.mk (trimChars s.data)

/-- Mirrors `toLowerCase` on the character level. -/
def lowerChars (l : List Char) : List Char :=
  l.map Char.toLower

/-- Whether the first list starts with the second. -/
def startsWithChars : List Char → List Char → Bool
  | _, [] => true
  | [], _ :: _ => false
  | a :: hay, b :: needle => a == b && startsWithChars hay needle

/-- Whether the second list has the first as a contiguous sublist. -/
def hasSubChars (needle : List Char) : List Char → Bool
  | [] => startsWithChars [] needle
  | c :: hay => startsWithChars (c :: hay) needle || hasSubChars needle hay

/-- Mirrors `transcript.toLowerCase().includes("stop")`. -/
def containsStop (transcript : String) : Bool :=
  hasSubChars "stop".data (lowerChars transcript.data)

/-- Effects emitted by the recognition result handler. -/
inductive RecogEffect where
  | setTranscript (t : String)
  | interruptCall
  | sendCommandCall (t : String)
  | addChat (kind text : String)
deriving DecidableEq

/-- Mirrors `recognition.onresult`: the transcript is displayed; while
speaking, a transcript containing the stop keyword triggers
`interruptSpeech`; a final result with a non-empty trimmed transcript is
sent to the backend as a command and appended to the chat, and the
displayed transcript is cleared on every final result. -/
def onRecognitionResult (isSpeaking : Bool) (transcript : String) (isFinal : Bool) :
    List RecogEffect :=
  (RecogEffect.setTranscript transcript ::
    (if isSpeaking && containsStop transcript then [RecogEffect.interruptCall] else [])) ++
  (if isFinal then
    (if jsTrim transcript ≠ "" then
      [RecogEffect.sendCommandCall (jsTrim transcript),
       RecogEffect.addChat "user" (jsTrim transcript)]
     else []) ++ [RecogEffect.setTranscript ""]
   else [])

/-! ## Speech synthesis adapter (src/unnamed/part_000, speak) -/

/-- The three possible dispositions of a `speak` call. -/
inductive SpeakAction where
  | cancelThenStart
  | dropRequest
  | startNow
deriving DecidableEq

/-- Mirrors the branch structure of `speak(text, isSystem, priority)`:
the first branch cancels the in-flight utterance and starts the new one
after a 100 ms pause, the second silently skips the request, and the last
starts speaking directly. -/
def speak (isSpeaking isSystem priority : Bool) : SpeakAction :=
  if priority || (isSpeaking && !isSystem) then SpeakAction.cancelThenStart
  else if isSpeaking && !priority then SpeakAction.dropRequest
  else SpeakAction.startNow

/-! ## Outbound WebSocket commands (src/unnamed/part_000) -/

/-- Effects of the outbound command helpers. -/
inductive OutEffect where
  | wsSend (msgType text : String)
  | report (text : String)
  | cancelSynth
  | setSpeakingFalse
  | speakOut (text : String)
deriving DecidableEq

/-- Mirrors `sendCommand`: send over the open socket, otherwise append an
error chat message. -/
def sendCommandEffects (wsOpen : Bool) (command : String) : List OutEffect :=
  if wsOpen then [OutEffect.wsSend "command" command]
  else [OutEffect.report "Not connected to backend"]

/-- Mirrors `interruptSpeech` with speech synthesis available: cancel local
speech, clear the speaking flag, and send the interrupt only when the
socket is open (the utterance ref clearing has no observable effect and is
omitted). -/
def interruptSpeechEffects (wsOpen : Bool) : List OutEffect :=
  [OutEffect.cancelSynth, OutEffect.setSpeakingFalse] ++
    (if wsOpen then [OutEffect.wsSend "interrupt" ""] else [])

/-- Mirrors `cancelCurrentTask`: only when the socket is open, send the
cancel message and announce the cancellation; otherwise do nothing. -/
def cancelCurrentTaskEffects (wsOpen : Bool) : List OutEffect :=
  if wsOpen then
    [OutEffect.wsSend "cancel" "", OutEffect.speakOut "Cancelling current task"]
  else []

/-- Whether an effect list surfaces an error chat message to the user. -/
def reportsFailure (effects : List OutEffect) : Bool :=
  effects.any fun e =>
    match e with
    | OutEffect.report _ => true
    | _ => false

/-! ## Planner thoughts polling (src/app/page.tsx, fetchThoughts) -/

/-- A planner thought: its timestamp and the next-steps list of its
content; the remaining content fields are never read by the logic
modelled here. -/
structure PlannerThought where
  timestamp : Nat
  next_steps : List String
deriving DecidableEq

/-- Effects of one `fetchThoughts` cycle. -/
inductive ThoughtEffect where
  | restartReveal (steps : List String)
  | markSeenCall
deriving DecidableEq

/-- The novelty test of `fetchThoughts`: no stored thought, or a different
timestamp. -/
def isNewThought (stored : Option PlannerThought) (latest : PlannerThought) : Bool :=
  match stored with
  | none => true
  | some s => latest.timestamp != s.timestamp

/-- Mirrors one `fetchThoughts` cycle given the fetched latest thought: a
new thought is stored, restarts the reveal effect over its next-steps list
and triggers the mark-seen call; otherwise nothing happens. -/
def fetchThoughtsStep (stored : Option PlannerThought) (latest : Option PlannerThought) :
    Option PlannerThought × List ThoughtEffect :=
  match latest with
  | none => (stored, [])
  | some t =>
    if isNewThought stored t then
      (some t, [ThoughtEffect.restartReveal t.next_steps, ThoughtEffect.markSeenCall])
    else (stored, [])

/-- Runs `fetchThoughts` cycles over a list of fetched thoughts, recording
for each arrival whether the reveal-and-mark-seen effects fired. -/
def runThoughts (stored : Option PlannerThought) : List PlannerThought → List Bool
  | [] => []
  | t :: rest =>
    (!(fetchThoughtsStep stored (some t)).2.isEmpty) ::
      runThoughts (fetchThoughtsStep stored (some t)).1 rest

/-! ## Typewriter reveal effect (src/app/page.tsx, startTypewriterEffect) -/

/-- Characters revealed per tick. -/
def charsPerFrame : Nat := 2

/-- Milliseconds between ticks. -/
def typewriterTickMs : Nat := 25

/-- Mirrors the full-text computation of `startTypewriterEffect`: the empty
steps list and the all-blank steps list show a placeholder instead (the
step truthiness test is subsumed by the non-blank trim test). -/
def typewriterFullText (steps : List String) : Option (List Char) :=
  if steps.isEmpty then none
  else
    let filteredSteps := steps.filter fun st => (jsTrim st).length != 0
    if filteredSteps.isEmpty then none
    else some (String.intercalate "\n\n" filteredSteps).data

/-- One tick of the reveal interval: while the position is inside the text,
append the next `charsPerFrame` characters and advance. -/
def typewriterTick (full : List Char) (st : Nat × List Char) : Nat × List Char :=
  if st.1 < full.length then
    (st.1 + charsPerFrame, st.2 ++ (full.drop st.1).take charsPerFrame)
  else st

/-- The reveal state after a number of ticks, starting from an empty
displayed text at position zero. -/
def typewriterRun (full : List Char) : Nat → Nat × List Char
  | 0 => (0, [])
  | k + 1 => typewriterTick full (typewriterRun full k)

/-! ## Task page state and cancel handler (src/app/page.tsx) -/

/-- A task as held by the page. -/
structure Task where
  id : String
  description : String
  status : String
deriving DecidableEq

/-- Step data; only the approval flag is read by the logic modelled here,
the remaining optional display fields are omitted. -/
structure StepData where
  pending_approval : Bool
deriving DecidableEq

/-- The page state touched by the cancel handler and the local reset. -/
structure PageState where
  activeTask : Option Task
  taskDescription : String
  isLoading : Bool
  stepLoading : Bool
  error : Option String
  stepError : Option String
  showVnc : Bool
  currentStep : Option StepData
  latestThought : Option PlannerThought
  displayedText : String
deriving DecidableEq

/-- Mirrors `toLowerCase` on strings. -/
def lowerStr (s : String) : String :=
  String.mk (lowerChars s.data)

/-- Mirrors `isTerminalStatus`. -/
def isTerminalStatus (status : String) : Bool :=
  ["complete", "completed", "failed", "error", "stopped"].contains (lowerStr status)

/-- Mirrors `handleStartNewTask`: the purely local reset (the typewriter
interval clearing has no state counterpart here). -/
def handleStartNewTask (s : PageState) : PageState :=
  { s with
    activeTask := none
    taskDescription := ""
    error := none
    showVnc := false
    currentStep := none
    latestThought := none
    displayedText := ""
    stepError := none }

/-- Mirrors `handleCancelGoal` up to the point where the reject-action
backend call is issued: the guard returns on a missing task, a set loading
flag, or a terminal status; a task still in the created status gets the
local reset only; otherwise the error fields are cleared, the step loading
flag is set, and the reject-action call is issued (second component). -/
def handleCancelGoal (s : PageState) : PageState × Bool :=
  match s.activeTask with
  | none => (s, false)
  | some task =>
    if s.isLoading || s.stepLoading || isTerminalStatus task.status then (s, false)
    else
      if lowerStr task.status = "created" then
        (handleStartNewTask { s with stepError := none, error := none }, false)
      else
        ({ s with stepError := none, error := none, stepLoading := true }, true)

/-! ## Theorems -/

/-- C1 counterexample: `fetchTaskStatus` ignores the detail field of a
parsable JSON error body; a 500 response whose body carries the detail
value "boom" fails with the generic status message, not with "boom" as
the claim states for every HTTP helper. -/
theorem fetchTaskStatus_ignores_detail :
    fetchTaskStatusResult { status := 500, body := some { detail := some "boom" } } =
      Except.error "Failed to fetch status: 500" ∧
    fetchTaskStatusResult { status := 500, body := some { detail := some "boom" } } ≠
      Except.error "boom" := by
  refine ⟨rfl, ?_⟩
  intro h
  have h2 : "Failed to fetch status: 500" = "boom" :=
    Except.error.inj ((rfl :
      fetchTaskStatusResult { status := 500, body := some { detail := some "boom" } } =
        Except.error "Failed to fetch status: 500").symm.trans h)
  exact absurd h2 (by decide)

/-- C1 (amended): for the nine helpers that route errors through
`handleApiResponse` or through the inline handler of `createTask`, a
non-2xx response with a JSON body carrying a non-empty detail field fails
with exactly that detail value, and a body that is not parsable JSON falls
back to the generic message carrying the HTTP status code;
`fetchTaskStatus` is the exception: it always fails with its generic
status-code message, whatever the body contains. -/
theorem apiClient_error_messages (s : Nat) (d : String)
    (hok : respOk s = false) (hd : d ≠ "") :
    createTaskResult { status := s, body := some { detail := some d } } = Except.error d ∧
    createTaskResult { status := s, body := none } =
      Except.error ("HTTP error! status: " ++ toString s) ∧
    (∀ context, handleApiResponse { status := s, body := some { detail := some d } } context =
      Except.error d) ∧
    (∀ context, handleApiResponse { status := s, body := none } context =
      Except.error ("HTTP error! status: " ++ toString s ++ " in " ++ context)) ∧
    (∀ body, fetchActionDataResult { status := s, body := body } =
      handleApiResponse { status := s, body := body } "fetchActionData") ∧
    (∀ body, fetchStepDataResult { status := s, body := body } =
      handleApiResponse { status := s, body := body } "fetchStepData") ∧
    (∀ resp, fetchPlannerThoughtsResult resp = handleApiResponse resp "fetchPlannerThoughts") ∧
    (∀ resp, markPlannerThoughtsSeenResult resp =
      handleApiResponse resp "markPlannerThoughtsSeen") ∧
    (∀ resp, resumeTaskResult resp = handleApiResponse resp "resumeTask") ∧
    (∀ resp, approveActionResult resp = handleApiResponse resp "approveAction") ∧
    (∀ resp, rejectActionResult resp = handleApiResponse resp "rejectAction") ∧
    (∀ resp, cancelGoalResult resp = handleApiResponse resp "cancelGoal") ∧
    (∀ body, fetchTaskStatusResult { status := s, body := body } =
      Except.error ("Failed to fetch status: " ++ toString s)) := by
  have h204 : s ≠ 204 := by
    intro h
    rw [h] at hok
    exact absurd hok (by decide)
  refine ⟨?_, ?_, ?_, ?_, ?_, ?_, fun _ => rfl, fun _ => rfl, fun _ => rfl, fun _ => rfl,
    fun _ => rfl, fun _ => rfl, ?_⟩
  · simp [createTaskResult, hok, detailOrDefault, hd]
  · simp [createTaskResult, hok, detailOrDefault]
  · intro context
    simp [handleApiResponse, hok, detailOrDefault, hd]
  · intro context
    simp [handleApiResponse, hok, detailOrDefault]
  · intro body
    simp [fetchActionDataResult, h204]
  · intro body
    simp [fetchStepDataResult, h204]
  · intro body
    simp [fetchTaskStatusResult, hok]

/-- C1 witness: at a concrete 404 response with detail "boom", createTask
fails with "boom" while fetchTaskStatus fails with its generic message. -/
theorem apiClient_error_messages_witness :
    createTaskResult { status := 404, body := some { detail := some "boom" } } =
      Except.error "boom" ∧
    fetchTaskStatusResult { status := 404, body := some { detail := some "boom" } } =
      Except.error "Failed to fetch status: 404" := by
  obtain ⟨h1, -, -, -, -, -, -, -, -, -, -, -, h13⟩ :=
    apiClient_error_messages 404 "boom" (by decide) (by decide)
  exact ⟨h1, h13 (some { detail := some "boom" })⟩

/-- C7: a 204 No Content response from the action and the step endpoints
yields a null result and never a failure, whatever the body holds. -/
theorem noContent_yields_null (body : Option Js) :
    fetchActionDataResult { status := 204, body := body } = Except.ok none ∧
    fetchStepDataResult { status := 204, body := body } = Except.ok none := by
  exact ⟨rfl, rfl⟩

/-- C2: an unclean close (code other than 1000) schedules exactly one
reconnect after min(1000 * 2 ^ attempts, 30000) milliseconds and
increments the attempt counter, so the delay sequence for attempts 0, 1,
2, 3 is 1000, 2000, 4000, 8000 ms and is capped at 30000 ms; a clean
close (code 1000) never schedules a reconnect; a successful open resets
the attempt counter to zero. -/
theorem reconnect_backoff (s : ChannelState) (code : Nat) (h : code ≠ 1000) :
    (wsOnClose s code).2 = some (min (1000 * 2 ^ s.attempts) 30000) ∧
    (wsOnClose s code).1.attempts = s.attempts + 1 ∧
    (wsOnClose s 1000).2 = none ∧
    (wsOnClose s 1000).1.attempts = s.attempts ∧
    (wsOnOpen s).attempts = 0 ∧
    backoffDelay 0 = 1000 ∧ backoffDelay 1 = 2000 ∧
    backoffDelay 2 = 4000 ∧ backoffDelay 3 = 8000 ∧
    (∀ n, backoffDelay n ≤ 30000) := by
  refine ⟨?_, ?_, ?_, ?_, rfl, by decide, by decide, by decide, by decide,
    fun n => Nat.min_le_right _ _⟩ <;>
    simp [wsOnClose, backoffDelay, h]

/-- C2 witness: an unclean close after 3 prior attempts schedules the
reconnect 8000 ms later. -/
theorem reconnect_backoff_witness :
    (wsOnClose { connected := true, attempts := 3 } 1006).2 = some 8000 := by
  have h := reconnect_backoff { connected := true, attempts := 3 } 1006 (by decide)
  exact h.1.trans (by decide)

/-- The key just inserted by `addCapped` is always present afterwards: the
eviction removes the oldest entry, never the newest. -/
theorem mem_addCapped (seen : List String) (key : String) : key ∈ addCapped seen key := by
  unfold addCapped
  by_cases hlen : (seen ++ [key]).length > 50
  · simp only [hlen, if_pos]
    cases seen with
    | nil => simp at hlen
    | cons a t => simp
  · simp only [hlen, if_neg, if_false]
    simp

/-- C3: once a message key is processed, a second message of the same type
and payload arriving in the same 2-second bucket is dropped; the seen set
stays capped at 50 entries; when a fresh key arrives at the 50-entry cap,
the oldest entry is evicted. -/
theorem dedup_within_bucket (seen : List String) (msgType payload : String) (n1 n2 : Nat)
    (hfresh : messageKey msgType payload n1 ∉ seen)
    (hbucket : n1 / 2000 = n2 / 2000) :
    (wsDedupStep seen (messageKey msgType payload n1)).1 = true ∧
    (wsDedupStep (wsDedupStep seen (messageKey msgType payload n1)).2
      (messageKey msgType payload n2)).1 = false ∧
    (∀ (st : List String) (key : String), st.length ≤ 50 →
      ((wsDedupStep st key).2).length ≤ 50) ∧
    (∀ (st : List String) (key : String), key ∉ st → st.length = 50 →
      (wsDedupStep st key).2 = st.tail ++ [key]) := by
  have hkey : messageKey msgType payload n2 = messageKey msgType payload n1 := by
    unfold messageKey
    rw [hbucket]
  refine ⟨?_, ?_, ?_, ?_⟩
  · simp [wsDedupStep, hfresh]
  · rw [hkey]
    simp only [wsDedupStep, hfresh, if_neg, if_false]
    have hmem := mem_addCapped seen (messageKey msgType payload n1)
    simp [hmem]
  · intro st key hle
    by_cases hk : key ∈ st
    · simpa [wsDedupStep, hk] using hle
    · simp only [wsDedupStep, hk, if_neg, if_false, addCapped]
      by_cases hlen : (st ++ [key]).length > 50
      · simp only [hlen, if_pos]
        simp only [List.length_tail, List.length_append, List.length_cons,
          List.length_nil]
        omega
      · simp only [hlen, if_neg, if_false]
        simp only [List.length_append, List.length_cons, List.length_nil] at hlen ⊢
        omega
  · intro st key hk h50
    cases st with
    | nil => simp at h50
    | cons a t =>
      simp only [wsDedupStep, hk, if_neg, if_false, addCapped]
      have ht : t.length = 49 := by
        simp only [List.length_cons] at h50
        omega
      have hlen : ((a :: t) ++ [key]).length > 50 := by
        simp only [List.length_append, List.length_cons, List.length_nil]
        omega
      simp [hlen, ht]

/-- C3 witness: with an empty seen set, a speak message processed at 100 ms
makes its duplicate at 1900 ms (same 2-second bucket) get dropped. -/
theorem dedup_within_bucket_witness :
    (wsDedupStep [] (messageKey "speak" "p" 100)).1 = true ∧
    (wsDedupStep (wsDedupStep [] (messageKey "speak" "p" 100)).2
      (messageKey "speak" "p" 1900)).1 = false := by
  have h := dedup_within_bucket [] "speak" "p" 100 1900 (by simp) (by decide)
  exact ⟨h.1, h.2.1⟩

/-- C4 counterexample: a finalized utterance "stop" heard while speech is
in progress triggers the interruption AND is still sent to the backend as
a command — the handler has no early return, so the claim that it is not
sent as a command is false. -/
theorem stop_still_sent_as_command :
    RecogEffect.interruptCall ∈ onRecognitionResult true "stop" true ∧
    RecogEffect.sendCommandCall "stop" ∈ onRecognitionResult true "stop" true := by
  decide

/-- C4 (amended): a recognized utterance containing the stop keyword while
output speech is in progress triggers the interruption of the in-flight
utterance, but when it finalizes with a non-empty trimmed transcript it is
nevertheless also sent to the backend as a command: the interruption does
not suppress command handling. -/
theorem stop_interrupts_and_commands (isSpeaking : Bool) (transcript : String)
    (isFinal : Bool) :
    (RecogEffect.interruptCall ∈ onRecognitionResult isSpeaking transcript isFinal ↔
      isSpeaking = true ∧ containsStop transcript = true) ∧
    (isFinal = true → jsTrim transcript ≠ "" →
      RecogEffect.sendCommandCall (jsTrim transcript) ∈
        onRecognitionResult isSpeaking transcript isFinal) := by
  constructor
  · simp only [onRecognitionResult, List.mem_append, List.mem_cons]
    by_cases hstop : isSpeaking && containsStop transcript
    · rw [if_pos hstop]
      simp only [Bool.and_eq_true] at hstop
      by_cases hfin : isFinal <;> by_cases htr : jsTrim transcript ≠ "" <;>
        simp [hfin, htr, hstop]
    · rw [if_neg hstop]
      simp only [Bool.and_eq_true] at hstop
      by_cases hfin : isFinal <;> by_cases htr : jsTrim transcript ≠ "" <;>
        simp [hfin, htr, hstop]
  · intro hfin htr
    simp [onRecognitionResult, hfin, htr]

/-- C4 witness: at the concrete final transcript "stop" heard while
speaking, the interruption fires and the command is still sent. -/
theorem stop_interrupts_and_commands_witness :
    RecogEffect.sendCommandCall "stop" ∈ onRecognitionResult true "stop" true ∧
    RecogEffect.interruptCall ∈ onRecognitionResult true "stop" true := by
  have h := stop_interrupts_and_commands true "stop" true
  exact ⟨h.2 rfl (by decide), h.1.mpr ⟨rfl, by decide⟩⟩

/-- C5 counterexample: a non-priority non-system request made while an
utterance is in flight cancels the in-flight utterance and starts the new
one, where the claim says it is dropped; and a system non-priority
request while speaking is dropped, where the claim says a system request
cancels the in-flight utterance before starting the new one. -/
theorem speak_branches_inverted :
    speak true false false = SpeakAction.cancelThenStart ∧
    speak true false false ≠ SpeakAction.dropRequest ∧
    speak true true false = SpeakAction.dropRequest ∧
    speak true true false ≠ SpeakAction.cancelThenStart := by
  decide

/-- C5 (amended): while an utterance is in flight, a priority request or a
non-system non-priority request cancels it before starting the new one,
while a system non-priority request is dropped; an utterance starts
directly only when nothing is speaking, so at most one utterance is ever
in flight and the newest priority request wins. -/
theorem speak_at_most_one_utterance :
    ∀ isSpeaking isSystem priority : Bool,
      (speak isSpeaking isSystem priority = SpeakAction.cancelThenStart ↔
        (priority = true ∨ (isSpeaking = true ∧ isSystem = false))) ∧
      (speak isSpeaking isSystem priority = SpeakAction.dropRequest ↔
        (isSpeaking = true ∧ isSystem = true ∧ priority = false)) ∧
      (speak isSpeaking isSystem priority = SpeakAction.startNow ↔
        (isSpeaking = false ∧ priority = false)) := by
  decide

/-- C6 counterexample: with the channel not open, `cancelCurrentTask` does
nothing at all and `interruptSpeech` only cancels local speech output —
neither surfaces any failure to the user, contradicting the claim that
each of the three outbound commands is a reported failure while
disconnected. -/
theorem outbound_silent_drops_offline :
    cancelCurrentTaskEffects false = [] ∧
    interruptSpeechEffects false = [OutEffect.cancelSynth, OutEffect.setSpeakingFalse] ∧
    reportsFailure (interruptSpeechEffects false) = false ∧
    reportsFailure (cancelCurrentTaskEffects false) = false := by
  decide

/-- C6 (amended): while the channel is not open, only `command(text)`
produces a local reported failure (the error chat message); `interrupt()`
and `cancel()` are silent drops — no send and no report, interrupt still
cancelling local speech; while the channel is open all three send their
message. -/
theorem outbound_offline_behaviour (command : String) :
    sendCommandEffects false command = [OutEffect.report "Not connected to backend"] ∧
    reportsFailure (sendCommandEffects false command) = true ∧
    interruptSpeechEffects false = [OutEffect.cancelSynth, OutEffect.setSpeakingFalse] ∧
    cancelCurrentTaskEffects false = [] ∧
    sendCommandEffects true command = [OutEffect.wsSend "command" command] ∧
    interruptSpeechEffects true =
      [OutEffect.cancelSynth, OutEffect.setSpeakingFalse, OutEffect.wsSend "interrupt" ""] ∧
    cancelCurrentTaskEffects true =
      [OutEffect.wsSend "cancel" "", OutEffect.speakOut "Cancelling current task"] := by
  exact ⟨rfl, rfl, rfl, rfl, rfl, rfl, rfl⟩

/-- Helper: the tick while the position is inside the text. -/
theorem typewriterTick_lt (full : List Char) (st : Nat × List Char)
    (h : st.1 < full.length) :
    typewriterTick full st =
      (st.1 + charsPerFrame, st.2 ++ (full.drop st.1).take charsPerFrame) := by
  simp [typewriterTick, h]

/-- Helper: the tick once the position is past the end of the text. -/
theorem typewriterTick_ge (full : List Char) (st : Nat × List Char)
    (h : ¬ st.1 < full.length) :
    typewriterTick full st = st := by
  simp [typewriterTick, h]

/-- Helper invariant of the reveal loop: the displayed text is always the
prefix of the full text up to the current position, and the position is
either exactly `charsPerFrame * k` or already past the end of the text
with `charsPerFrame * k` past it too. -/
theorem typewriterRun_invariant (full : List Char) (k : Nat) :
    (typewriterRun full k).2 = full.take (typewriterRun full k).1 ∧
    ((typewriterRun full k).1 = charsPerFrame * k ∨
      (full.length ≤ (typewriterRun full k).1 ∧ full.length ≤ charsPerFrame * k)) := by
  induction k with
  | zero => simp [typewriterRun]
  | succ k ih =>
    obtain ⟨hd, hp⟩ := ih
    have hrun : typewriterRun full (k + 1) = typewriterTick full (typewriterRun full k) := rfl
    have hc : charsPerFrame = 2 := rfl
    by_cases hlt : (typewriterRun full k).1 < full.length
    · have hpk : (typewriterRun full k).1 = charsPerFrame * k := by
        rcases hp with h | ⟨h1, -⟩
        · exact h
        · omega
      rw [hrun, typewriterTick_lt full _ hlt]
      constructor
      · show (typewriterRun full k).2 ++ (full.drop (typewriterRun full k).1).take charsPerFrame
          = full.take ((typewriterRun full k).1 + charsPerFrame)
        rw [List.take_add, hd]
      · left
        show (typewriterRun full k).1 + charsPerFrame = charsPerFrame * (k + 1)
        rw [hpk]
        exact (Nat.mul_succ _ _).symm
    · rw [hrun, typewriterTick_ge full _ hlt]
      refine ⟨hd, Or.inr ⟨Nat.le_of_not_lt hlt, ?_⟩⟩
      have hlen := Nat.le_of_not_lt hlt
      rcases hp with h | ⟨-, h2⟩
      · rw [hc] at h ⊢
        omega
      · rw [hc] at h2 ⊢
        omega

/-- Helper: after k ticks the reveal shows exactly the first
`charsPerFrame * k` characters of the full text. -/
theorem typewriterRun_take (full : List Char) (k : Nat) :
    (typewriterRun full k).2 = full.take (charsPerFrame * k) := by
  obtain ⟨hd, hp⟩ := typewriterRun_invariant full k
  rcases hp with h | ⟨h1, h2⟩
  · rw [hd, h]
  · rw [hd, List.take_of_length_le h1, List.take_of_length_le h2]

/-- C8: a fetched planner thought is treated as new exactly when its
timestamp differs from the stored one (or none is stored); a new thought
restarts the reveal effect over its next-steps list and triggers the
mark-seen call, a repeated identical timestamp triggers neither; over a
stored thought T1, arrivals T1, T2, T1 restart the reveal on the two
transitions only; and the reveal runs at 2 characters per 25 ms tick,
showing the first 2k characters after k ticks. -/
theorem planner_thought_novelty (t1 t2 : PlannerThought)
    (hne : t1.timestamp ≠ t2.timestamp) :
    (∀ stored, fetchThoughtsStep stored none = (stored, [])) ∧
    (∀ s t : PlannerThought, t.timestamp = s.timestamp →
      fetchThoughtsStep (some s) (some t) = (some s, [])) ∧
    (∀ s t : PlannerThought, t.timestamp ≠ s.timestamp →
      fetchThoughtsStep (some s) (some t) =
        (some t, [ThoughtEffect.restartReveal t.next_steps, ThoughtEffect.markSeenCall])) ∧
    (∀ t : PlannerThought, fetchThoughtsStep none (some t) =
      (some t, [ThoughtEffect.restartReveal t.next_steps, ThoughtEffect.markSeenCall])) ∧
    runThoughts (some t1) [t1, t2, t1] = [false, true, true] ∧
    charsPerFrame = 2 ∧ typewriterTickMs = 25 ∧
    (∀ (full : List Char) (k : Nat),
      (typewriterRun full k).2 = full.take (charsPerFrame * k)) := by
  have hstep_eq : ∀ s t : PlannerThought, t.timestamp = s.timestamp →
      fetchThoughtsStep (some s) (some t) = (some s, []) := by
    intro s t h
    simp [fetchThoughtsStep, isNewThought, h]
  have hstep_ne : ∀ s t : PlannerThought, t.timestamp ≠ s.timestamp →
      fetchThoughtsStep (some s) (some t) =
        (some t, [ThoughtEffect.restartReveal t.next_steps, ThoughtEffect.markSeenCall]) := by
    intro s t h
    simp [fetchThoughtsStep, isNewThought, h]
  refine ⟨fun stored => rfl, hstep_eq, hstep_ne, fun t => rfl, ?_, rfl, rfl,
    typewriterRun_take⟩
  simp only [runThoughts, hstep_eq t1 t1 rfl, hstep_ne t1 t2 (Ne.symm hne),
    hstep_ne t2 t1 hne]
  simp

/-- C8 witness: the concrete arrival sequence with timestamps 1, 2, 1 over
a stored thought with timestamp 1 fires the reveal on the two transitions
only. -/
theorem planner_thought_novelty_witness :
    runThoughts (some { timestamp := 1, next_steps := ["a"] })
      [{ timestamp := 1, next_steps := ["a"] },
       { timestamp := 2, next_steps := ["b"] },
       { timestamp := 1, next_steps := ["a"] }] = [false, true, true] := by
  have h := planner_thought_novelty { timestamp := 1, next_steps := ["a"] }
    { timestamp := 2, next_steps := ["b"] } (by decide)
  exact h.2.2.2.2.1

/-- Helper: the shape of `handleCancelGoal` once a task is active. -/
theorem handleCancelGoal_some (s : PageState) (task : Task)
    (hA : s.activeTask = some task) :
    handleCancelGoal s =
      if s.isLoading || s.stepLoading || isTerminalStatus task.status then (s, false)
      else if lowerStr task.status = "created" then
        (handleStartNewTask { s with stepError := none, error := none }, false)
      else ({ s with stepError := none, error := none, stepLoading := true }, true) := by
  unfold handleCancelGoal
  rw [hA]

/-- C9: invoked on an active non-terminal task with no loading flag set,
the cancel-goal handler issues the reject-action backend call exactly when
the task status is not `created`; on a `created` task it performs only the
local reset (task, description, step, thought and error state cleared)
and issues no backend call at all. -/
theorem cancelGoal_created_vs_reject (s : PageState) (task : Task)
    (hA : s.activeTask = some task) (hL : s.isLoading = false)
    (hS : s.stepLoading = false) (hT : isTerminalStatus task.status = false) :
    ((handleCancelGoal s).2 = true ↔ lowerStr task.status ≠ "created") ∧
    (lowerStr task.status = "created" →
      handleCancelGoal s = (handleStartNewTask s, false)) := by
  have hmain := handleCancelGoal_some s task hA
  rw [hL, hS, hT] at hmain
  simp only [Bool.or_self, Bool.false_or, Bool.false_eq_true, if_false] at hmain
  by_cases hc : lowerStr task.status = "created"
  · rw [hmain, if_pos hc]
    refine ⟨by simp [hc], fun _ => ?_⟩
    simp [handleStartNewTask, hL, hS]
  · rw [hmain, if_neg hc]
    exact ⟨by simp [hc], fun h => absurd h hc⟩

/-- Concrete task used by the C9 witness. -/
def exampleTask : Task :=
  { id := "t1", description := "d", status := "created" }

/-- Concrete page state used by the C9 witness. -/
def examplePage : PageState :=
  { activeTask := some exampleTask
    taskDescription := "d"
    isLoading := false
    stepLoading := false
    error := some "e"
    stepError := some "se"
    showVnc := true
    currentStep := some { pending_approval := true }
    latestThought := some { timestamp := 5, next_steps := ["x"] }
    displayedText := "x" }

/-- C9 witness: cancelling the concrete created task only resets the page
locally and issues no backend call. -/
theorem cancelGoal_created_vs_reject_witness :
    handleCancelGoal examplePage = (handleStartNewTask examplePage, false) := by
  have h := cancelGoal_created_vs_reject examplePage exampleTask rfl rfl rfl (by decide)
  exact h.2 (by decide)

/-- C10: past the 2-second-bucket gate, a result message whose text equals
the most recently processed result text is appended to the chat history
but never spoken, at any arrival time; a different text is spoken and
becomes the new stored last result. -/
theorem result_text_dedup (seen : List String) (lastText text : String) (now : Nat)
    (hfresh : resultKey text now ∉ seen) :
    (onResultMessage seen lastText text now).appended = true ∧
    ((onResultMessage seen lastText text now).spoken = false ↔ lastText = text) ∧
    (lastText = text → (onResultMessage seen lastText text now).lastResult = lastText) ∧
    (lastText ≠ text → (onResultMessage seen lastText text now).lastResult = text) := by
  by_cases heq : lastText = text <;>
    simp [onResultMessage, hfresh, heq]

/-- C10 witness: a concrete repeated result text is appended but stays
silent. -/
theorem result_text_dedup_witness :
    (onResultMessage [] "done" "done" 999999).appended = true ∧
    (onResultMessage [] "done" "done" 999999).spoken = false := by
  have h := result_text_dedup [] "done" "done" 999999 (by simp)
  exact ⟨h.1, h.2.1.mpr rfl⟩

end Speech
